import Mathlib

/-!
Verification of the IEKF filter core (src/modules/iekf/IEKF.cpp, IEKF.hpp).

Shallow embedding conventions:
* `float` values are modelled as `Flt := Option ℚ`: `some a` is the finite value `a`
  (exact rational arithmetic, no rounding/overflow), `none` is a non-finite value
  (NaN or ±Inf).  Arithmetic propagates `none`; comparisons with `none` are false,
  matching IEEE NaN comparison semantics.
* `uint64_t` timestamps are `ℕ`; arithmetic on them is taken mod 2^64 exactly where
  the C code performs unsigned arithmetic.
* The nominal state `x` is `Fin 16 → Flt`, the error covariance `P` is
  `Fin 15 → Fin 15 → Flt`, the input `u` is `Fin 6 → Flt`, indexed as in
  constants.hpp usage:
  X:  0..3 q_nb, 4..6 vel_{n,e,d}, 7..9 gyro_bias_b{x,y,z}, 10 accel_scale,
      11..13 pos_{n,e,d}, 14 terrain_alt, 15 baro_bias.
  Xe: 0..2 rot_{n,e,d}, 3..5 vel, 6..8 gyro_bias, 9 accel_scale, 10..12 pos,
      13 terrain_alt, 14 baro_bias.
  U:  0..2 omega_nb_b, 3..5 accel_b.
-/

set_option allowUnsafeReducibility true

attribute [semireducible] Rat.add Rat.sub Rat.mul Rat.inv Rat.ofScientific

set_option maxRecDepth 100000

/-- A float value: `some a` finite, `none` non-finite (NaN/Inf). -/
abbrev Flt := Option ℚ

def fadd : Flt → Flt → Flt
  | some a, some b => some (a + b)
  | _, _ => none

def fsub : Flt → Flt → Flt
  | some a, some b => some (a - b)
  | _, _ => none

def fmul : Flt → Flt → Flt
  | some a, some b => some (a * b)
  | _, _ => none

/-- Float division; division by zero yields a non-finite value. -/
def fdiv : Flt → Flt → Flt
  | some a, some b => if b = 0 then none else some (a / b)
  | _, _ => none

def fneg : Flt → Flt
  | some a => some (-a)
  | none => none

def fabs : Flt → Flt
  | some a => some |a|
  | none => none

/-- `x > y` as the C float comparison: false when either side is non-finite. -/
def fgt : Flt → Flt → Bool
  | some a, some b => decide (b < a)
  | _, _ => false

/-- One Newton step sequence for a rational square-root approximation. -/
def newtonSqrt : ℕ → ℚ → ℚ → ℚ
  | 0, _, t => t
  | k + 1, x, t => newtonSqrt k x ((t + x / t) / 2)

/-- Fuel-driven integer Newton iteration (structural recursion, so that concrete
evaluation reduces in the kernel). -/
def natSqrtFuel : ℕ → ℕ → ℕ → ℕ
  | 0, _, g => g
  | f + 1, n, g =>
    let next := (g + n / g) / 2
    if next < g then natSqrtFuel f n next else g

/-- Integer square root (floor), structurally recursive. -/
def natSqrt (n : ℕ) : ℕ := if n ≤ 1 then n else natSqrtFuel n n (n / 2)

/-- Modelled from the spec: the floating-point square root used by the vector norm and
quaternion normalization (`matrix` library, not under src/).  Exact on perfect-square
rationals (which covers every use in the settled claims); a Newton iteration otherwise. -/
def sqrtQ (x : ℚ) : ℚ :=
  if x ≤ 0 then 0
  else
    let n := x.num.toNat
    let d := x.den
    if natSqrt n * natSqrt n = n ∧ natSqrt d * natSqrt d = d then
      (natSqrt n : ℚ) / (natSqrt d : ℚ)
    else newtonSqrt 6 x ((x + 1) / 2)

def fsqrt : Flt → Flt
  | some a => some (sqrtQ a)
  | none => none

/-- A 3-vector of float values. -/
structure V3F where
  vx : Flt
  vy : Flt
  vz : Flt

/-- A scalar-first quaternion of float values. -/
structure QuatF where
  q0 : Flt
  q1 : Flt
  q2 : Flt
  q3 : Flt

def v3add (a b : V3F) : V3F := ⟨fadd a.vx b.vx, fadd a.vy b.vy, fadd a.vz b.vz⟩

def v3sub (a b : V3F) : V3F := ⟨fsub a.vx b.vx, fsub a.vy b.vy, fsub a.vz b.vz⟩

def v3divS (a : V3F) (s : Flt) : V3F := ⟨fdiv a.vx s, fdiv a.vy s, fdiv a.vz s⟩

def v3normSq (a : V3F) : Flt :=
  fadd (fadd (fmul a.vx a.vx) (fmul a.vy a.vy)) (fmul a.vz a.vz)

def v3norm (a : V3F) : Flt := fsqrt (v3normSq a)

def v3unit (a : V3F) : V3F := v3divS a (v3norm a)

def v3idx (a : V3F) (k : ℕ) : Flt := if k = 0 then a.vx else if k = 1 then a.vy else a.vz

/-- The skew-symmetric cross-product (hat) matrix of a 3-vector, over ℕ indices. -/
def v3hatN (v : V3F) (i j : ℕ) : Flt :=
  if i = 0 ∧ j = 1 then fneg v.vz
  else if i = 0 ∧ j = 2 then v.vy
  else if i = 1 ∧ j = 0 then v.vz
  else if i = 1 ∧ j = 2 then fneg v.vx
  else if i = 2 ∧ j = 0 then fneg v.vy
  else if i = 2 ∧ j = 1 then v.vx
  else some 0

/-- Hamilton product of scalar-first quaternions (matrix library `Quaternion` product). -/
def qMul (p q : QuatF) : QuatF :=
  ⟨fsub (fsub (fsub (fmul p.q0 q.q0) (fmul p.q1 q.q1)) (fmul p.q2 q.q2)) (fmul p.q3 q.q3),
   fsub (fadd (fadd (fmul p.q0 q.q1) (fmul p.q1 q.q0)) (fmul p.q2 q.q3)) (fmul p.q3 q.q2),
   fadd (fadd (fsub (fmul p.q0 q.q2) (fmul p.q1 q.q3)) (fmul p.q2 q.q0)) (fmul p.q3 q.q1),
   fadd (fsub (fadd (fmul p.q0 q.q3) (fmul p.q1 q.q2)) (fmul p.q2 q.q1)) (fmul p.q3 q.q0)⟩

def qConjugate (q : QuatF) : QuatF := ⟨q.q0, fneg q.q1, fneg q.q2, fneg q.q3⟩

def qOfV (v : V3F) : QuatF := ⟨some 0, v.vx, v.vy, v.vz⟩

def qScale (c : ℚ) (q : QuatF) : QuatF :=
  ⟨fmul q.q0 (some c), fmul q.q1 (some c), fmul q.q2 (some c), fmul q.q3 (some c)⟩

/-- Modelled from the spec: `Quaternion::conjugate(v)` rotates a body vector to nav,
`q · v · q*` (§4.2). -/
def qConj (q : QuatF) (v : V3F) : V3F :=
  let r := qMul (qMul q (qOfV v)) (qConjugate q)
  ⟨r.q1, r.q2, r.q3⟩

/-- Modelled from the spec: `Quaternion::conjugate_inversed(v)`, `q* · v · q` (§4.5). -/
def qConjInv (q : QuatF) (v : V3F) : V3F :=
  let r := qMul (qMul (qConjugate q) (qOfV v)) q
  ⟨r.q1, r.q2, r.q3⟩

def qNormSq (q : QuatF) : Flt :=
  fadd (fadd (fadd (fmul q.q0 q.q0) (fmul q.q1 q.q1)) (fmul q.q2 q.q2)) (fmul q.q3 q.q3)

def qNorm (q : QuatF) : Flt := fsqrt (qNormSq q)

def qNormalize (q : QuatF) : QuatF :=
  ⟨fdiv q.q0 (qNorm q), fdiv q.q1 (qNorm q), fdiv q.q2 (qNorm q), fdiv q.q3 (qNorm q)⟩

abbrev Vec16 := Fin 16 → Flt
abbrev Vec15 := Fin 15 → Flt
abbrev Vec6 := Fin 6 → Flt
abbrev Mat15 := Fin 15 → Fin 15 → Flt

def toF {n : ℕ} (v : Fin n → ℚ) : Fin n → Flt := fun i => some (v i)

def vecAdd {n : ℕ} (a b : Fin n → Flt) : Fin n → Flt := fun i => fadd (a i) (b i)

def fsumList (l : List Flt) : Flt := l.foldl fadd (some 0)

def matMul {m k n : ℕ} (A : Fin m → Fin k → Flt) (B : Fin k → Fin n → Flt) :
    Fin m → Fin n → Flt :=
  fun i j => fsumList ((List.finRange k).map fun t => fmul (A i t) (B t j))

def matAdd {m n : ℕ} (A B : Fin m → Fin n → Flt) : Fin m → Fin n → Flt :=
  fun i j => fadd (A i j) (B i j)

def matT {m n : ℕ} (A : Fin m → Fin n → Flt) : Fin n → Fin m → Flt := fun i j => A j i

def matNeg {m n : ℕ} (A : Fin m → Fin n → Flt) : Fin m → Fin n → Flt :=
  fun i j => fneg (A i j)

def matScaleQ {m n : ℕ} (c : ℚ) (A : Fin m → Fin n → Flt) : Fin m → Fin n → Flt :=
  fun i j => fmul (A i j) (some c)

def matVec {m n : ℕ} (A : Fin m → Fin n → Flt) (v : Fin n → Flt) : Fin m → Flt :=
  fun i => fsumList ((List.finRange n).map fun t => fmul (A i t) (v t))

def vdot {n : ℕ} (a b : Fin n → Flt) : Flt :=
  fsumList ((List.finRange n).map fun t => fmul (a t) (b t))

/-- Modelled from the spec: the matrix inverse used inside the Kalman update
(`matrix` library, not under src/).  Computed as adjugate over determinant; a singular
or non-finite input yields a non-finite result (the float code would produce Inf/NaN). -/
def minv (m : ℕ) (S : Fin m → Fin m → Flt) : Fin m → Fin m → Flt :=
  if _h : ∀ i j, (S i j).isSome then
    let M : Matrix (Fin m) (Fin m) ℚ := Matrix.of fun i j => (S i j).getD 0
    if M.det = 0 then fun _ _ => none
    else fun i j => some (M.adjugate i j / M.det)
  else fun _ _ => none

/-- Output triple of the linear Kalman update. -/
structure KOut (ne : ℕ) where
  dxe : Fin ne → Flt
  dP : Fin ne → Fin ne → Flt
  beta : Flt

/-- Modelled from the spec: the linear Kalman update of matrix/filter.hpp (not under src/),
§4.4: `S = H·P·Hᵀ + R`, `K = P·Hᵀ·S⁻¹`, `dxe = K·r`, `dP = −K·H·P`, `β = rᵀ·S⁻¹·r`. -/
def kalman_correct {ne mm : ℕ} (P : Fin ne → Fin ne → Flt) (H : Fin mm → Fin ne → Flt)
    (R : Fin mm → Fin mm → Flt) (r : Fin mm → Flt) : KOut ne :=
  let S := matAdd (matMul (matMul H P) (matT H)) R
  let Si := minv mm S
  { dxe := matVec (matMul (matMul P (matT H)) Si) r
    dP := matNeg (matMul (matMul (matMul (matMul P (matT H)) Si) H) P)
    beta := vdot r (matVec Si r) }

/-! ## Messages and collaborators -/

/-- The fields of `sensor_combined_s` used by the filter.  Timestamps are µs; the
relative timestamps are added to `timestamp` with unsigned 64-bit wraparound. -/
structure SensorCombined where
  timestamp : ℕ
  accelerometer_timestamp_relative : ℕ
  magnetometer_timestamp_relative : ℕ
  baro_timestamp_relative : ℕ
  gyro_rad : Fin 3 → Flt
  accelerometer_m_s2 : Fin 3 → Flt
  magnetometer_ga : Fin 3 → Flt
  baro_alt_meter : Flt
  gyro_integral_dt : ℚ

/-- The fields of `vehicle_gps_position_s` used by the filter. -/
structure GpsPosition where
  timestamp : ℕ
  lat : ℤ
  lon : ℤ
  alt : ℤ
  vel_n_m_s : Flt
  vel_e_m_s : Flt
  vel_d_m_s : Flt
  satellites_used : ℕ
  fix_type : ℕ

/-- Modelled from the spec: the Origin collaborator (Origin.hpp is not under src/).
Spec §6 requires xy and alt latch flags with lat/lon/alt values and latch timestamps;
a fresh Origin has both latches false (xyLatched models xy_initialized, latchXY models
xy_initialize, and likewise for alt). -/
structure Origin where
  xyLatched : Bool
  altLatched : Bool
  latDeg : ℚ
  lonDeg : ℚ
  alt : ℚ
  xyTimestamp : ℕ
  altTimestamp : ℕ

/-- Modelled from the spec: `xy_initialize(lat, lon, t)` latches the horizontal origin. -/
def latchXY (o : Origin) (lat lon : ℚ) (t : ℕ) : Origin :=
  { o with xyLatched := true, latDeg := lat, lonDeg := lon, xyTimestamp := t }

/-- Modelled from the spec: `alt_initialize(alt, t)` latches the vertical origin. -/
def latchAlt (o : Origin) (a : ℚ) (t : ℕ) : Origin :=
  { o with altLatched := true, alt := a, altTimestamp := t }

/-- The geodesy helper `global_to_local` is deliberately external (spec §1); the
correctors take it as a parameter. -/
abbrev GlobalToLocal := Origin → ℚ → ℚ → ℚ → V3F

/-- The IEKF filter state: nominal state `x`, covariance `P`, cached input `u`,
origin, per-sensor timestamp caches, and the log of fault warnings (`ROS_WARN`). -/
structure Iekf where
  x : Vec16
  P : Mat15
  u : Vec6
  origin : Origin
  tAccel : ℕ
  tMag : ℕ
  tBaro : ℕ
  tGps : ℕ
  warns : List String

/-- `_g_n = (0, 0, -9.8)`. -/
def g_n : V3F := ⟨some 0, some 0, some (-(49/5))⟩

/-- `_B_n = (0.21523, 0.00771, -0.42741)`, set in the constructor and never mutated. -/
def B_nVec : V3F := ⟨some (21523/100000), some (771/100000), some (-(42741/100000))⟩

/-- Diagonal of the initial covariance `_P` set by the constructor. -/
def initPdiag (i : Fin 15) : ℚ :=
  if i.val < 2 then 10
  else if i.val = 2 then 100
  else if i.val < 6 then 10^9
  else if i.val < 9 then 1/10^3
  else if i.val = 9 then 1/10
  else 10^9

def initP : Mat15 := fun i j => if i = j then some (initPdiag i) else some 0

/-- Initial nominal state: identity quaternion, `accel_scale = 1`, rest zero. -/
def initX : Vec16 := fun i => if i.val = 0 then some 1 else if i.val = 10 then some 1 else some 0

/-- The freshly constructed filter (IEKF::IEKF). -/
def iekfInit : Iekf :=
  { x := initX
    P := initP
    u := fun _ => some 0
    origin := ⟨false, false, 0, 0, 0, 0, 0⟩
    tAccel := 0
    tMag := 0
    tBaro := 0
    tGps := 0
    warns := [] }

/-! ## Covariance conditioner (IEKF::setP) and state bounder (IEKF::boundX) -/

/-- The per-entry conditioning of `setP`: zero a non-finite entry, clamp above at 1e9,
and (on the diagonal) raise values below 1e-6 to 1e-6. -/
def condEntry (diag : Bool) (v : Flt) : ℚ :=
  let a : ℚ := match v with | none => 0 | some a => a
  let b : ℚ := if 10^9 < a then 10^9 else a
  if diag then (if b < 1/10^6 then 1/10^6 else b) else b

/-- IEKF::setP.  The C loop conditions `_P(i, j)` for every `j ≤ i` (the lower triangle,
row ≥ column, diagonal included), then copies `_P(j, i) = _P(i, j)` for `j < i`.  The
conditioning pass at row `i` reads only original entries (the copies so far wrote only
strictly-upper positions), and no later iteration overwrites a copied entry, so the net
effect is: each lower-triangle entry is the conditioned input entry, and each strictly
upper entry mirrors its conditioned lower counterpart. -/
def setP (P : Mat15) : Mat15 := fun i j =>
  if j.val ≤ i.val then some (condEntry (decide (i = j)) (P i j))
  else some (condEntry false (P j i))

/-- Lower saturation bounds of boundX (same order as the state vector). -/
def lowerBound (i : Fin 16) : ℚ :=
  if i.val < 4 then -2
  else if i.val < 7 then -100
  else if i.val < 10 then 0
  else if i.val = 10 then 4/5
  else if i.val < 14 then -(10^9)
  else -(10^6)

/-- Upper saturation bounds of boundX. -/
def upperBound (i : Fin 16) : ℚ :=
  if i.val < 4 then 2
  else if i.val < 7 then 100
  else if i.val < 10 then 0
  else if i.val = 10 then 3/2
  else if i.val < 14 then 10^9
  else 10^6

/-- The per-element clamp of boundX: `if x < lower then lower else if x > upper then upper`. -/
def clampB (i : Fin 16) (a : ℚ) : ℚ :=
  if a < lowerBound i then lowerBound i
  else if upperBound i < a then upperBound i
  else a

/-- IEKF::boundX: non-finite elements become 0, then every element is saturated. -/
def boundX (x : Vec16) : Vec16 := fun i =>
  some (clampB i (match x i with | none => 0 | some a => a))

/-! ## Dynamics (IEKF::dynamics) -/

def quatOfX (x : Vec16) : QuatF := ⟨x 0, x 1, x 2, x 3⟩

/-- IEKF::dynamics.  The C member function takes arguments `x` and `u` but reads the
body rates, the accelerometer sample, the accelerometer scale and the gyro bias from
the member fields `_x` and `_u`; those members are passed here explicitly as `xm` and
`um`.  Only the quaternion and the velocity (for the position derivative) come from
the argument `x`; the argument `u` is never read. -/
def dynamics (x : Vec16) (_u : Vec6) (xm : Vec16) (um : Vec6) : Vec16 :=
  let q_nb := quatOfX x
  let a_b : V3F := ⟨um 3, um 4, um 5⟩
  let as_n := v3sub (qConj q_nb (v3divS a_b (xm 10))) g_n
  let gyro_bias_b : V3F := ⟨xm 7, xm 8, xm 9⟩
  let omega_nb_b : V3F := ⟨um 0, um 1, um 2⟩
  let wc := v3sub omega_nb_b gyro_bias_b
  let dq_nb := qScale (1/2) (qMul q_nb (qOfV wc))
  fun i =>
    if i.val = 0 then dq_nb.q0
    else if i.val = 1 then dq_nb.q1
    else if i.val = 2 then dq_nb.q2
    else if i.val = 3 then dq_nb.q3
    else if i.val = 4 then as_n.vx
    else if i.val = 5 then as_n.vy
    else if i.val = 6 then as_n.vz
    else if i.val = 11 then x 4
    else if i.val = 12 then x 5
    else if i.val = 13 then x 6
    else some 0

/-! ## Error injection (IEKF::applyErrorCorrection) -/

/-- IEKF::applyErrorCorrection: quaternion left-multiplicative injection, nav-frame
gyro-bias error rotated into body, multiplicative accel scale, additive otherwise,
followed by boundX. -/
def applyErrorCorrection (s : Iekf) (d_xe : Vec15) : Iekf :=
  let q_nb := quatOfX s.x
  let d_q_nb := qMul ⟨some 0, d_xe 0, d_xe 1, d_xe 2⟩ q_nb
  let d_gyro_bias_b := qConjInv q_nb ⟨d_xe 6, d_xe 7, d_xe 8⟩
  let dx : Vec16 := fun i =>
    if i.val = 0 then d_q_nb.q0
    else if i.val = 1 then d_q_nb.q1
    else if i.val = 2 then d_q_nb.q2
    else if i.val = 3 then d_q_nb.q3
    else if i.val = 4 then d_xe 3
    else if i.val = 5 then d_xe 4
    else if i.val = 6 then d_xe 5
    else if i.val = 7 then d_gyro_bias_b.vx
    else if i.val = 8 then d_gyro_bias_b.vy
    else if i.val = 9 then d_gyro_bias_b.vz
    else if i.val = 10 then fmul (s.x 10) (d_xe 9)
    else if i.val = 11 then d_xe 10
    else if i.val = 12 then d_xe 11
    else if i.val = 13 then d_xe 12
    else if i.val = 14 then d_xe 13
    else d_xe 14
  { s with x := boundX (vecAdd s.x dx) }

/-! ## Predictor (IEKF::predict) -/

/-- Diagonal of the process noise `Q` built inside predict. -/
def Qdiag (i : Fin 15) : ℚ :=
  if i.val < 6 then 1/10
  else if i.val < 9 then 1/10^4
  else if i.val = 9 then 1/10^2
  else 1/10

def Qmat : Mat15 := fun i j => if i = j then some (Qdiag i) else some 0

/-- The error-state system matrix `A` built inside predict, from the (possibly
renormalized) quaternion and the member fields. -/
def predictA (q : QuatF) (xm : Vec16) (um : Vec6) : Mat15 :=
  let a_b : V3F := ⟨um 3, um 4, um 5⟩
  let J_a_n := qConj q (v3divS a_b (xm 10))
  let gyro_bias_b : V3F := ⟨xm 7, xm 8, xm 9⟩
  let omega_nb_b : V3F := ⟨um 0, um 1, um 2⟩
  let J_w_n := qConj q (v3sub omega_nb_b gyro_bias_b)
  fun i j =>
    if i.val < 3 ∧ j.val = i.val + 6 then some (-(1/2))
    else if 3 ≤ i.val ∧ i.val < 6 ∧ j.val < 3 then
      fmul (fneg (v3hatN J_a_n (i.val - 3) j.val)) (some 2)
    else if 3 ≤ i.val ∧ i.val < 6 ∧ j.val = 9 then fneg (v3idx J_a_n (i.val - 3))
    else if 6 ≤ i.val ∧ i.val < 9 ∧ j.val < 3 then v3hatN J_w_n (i.val - 6) j.val
    else if 10 ≤ i.val ∧ i.val < 13 ∧ j.val = i.val - 7 then some 1
    else some 0

/-- IEKF::predict: optional quaternion renormalization, Euler integration of the
nominal state through `dynamics`, Euler integration of the covariance through `A`
and `Q`, bounded by boundX and conditioned by setP. -/
def predict (s : Iekf) (dt : ℚ) : Iekf :=
  let q0 := quatOfX s.x
  let renorm := fgt (fabs (fsub (qNorm q0) (some 1))) (some (1/10^3))
  let q := if renorm then qNormalize q0 else q0
  let x1 : Vec16 :=
    if renorm then
      fun i =>
        if i.val = 0 then q.q0
        else if i.val = 1 then q.q1
        else if i.val = 2 then q.q2
        else if i.val = 3 then q.q3
        else s.x i
    else s.x
  let A := predictA q x1 s.u
  let dx : Vec16 := fun i => fmul (dynamics x1 s.u x1 s.u i) (some dt)
  let x2 := boundX (vecAdd x1 dx)
  let dP := matScaleQ dt (matAdd (matAdd (matMul A s.P) (matMul s.P (matT A))) Qmat)
  let P2 := setP (matAdd s.P dP)
  { s with x := x2, P := P2 }

/-! ## Correctors -/

/-- Unsigned 64-bit timestamp difference scaled to seconds, exactly as the C
expression `(timestampNew - timestampCached) / 1.0e6f` computes it: the subtraction
is uint64 arithmetic (wrapping mod 2^64), so the result is never negative. -/
def wrapDt (tNew tOld : ℕ) : ℚ := (((tNew + 2^64 - tOld) % 2^64 : ℕ) : ℚ) / 10^6

def accelTNew (m : SensorCombined) : ℕ :=
  (m.timestamp + m.accelerometer_timestamp_relative) % 2^64

def magTNew (m : SensorCombined) : ℕ :=
  (m.timestamp + m.magnetometer_timestamp_relative) % 2^64

def baroTNew (m : SensorCombined) : ℕ :=
  (m.timestamp + m.baro_timestamp_relative) % 2^64

def accelY (m : SensorCombined) : V3F :=
  ⟨m.accelerometer_m_s2 0, m.accelerometer_m_s2 1, m.accelerometer_m_s2 2⟩

def v3ToVec (v : V3F) : Fin 3 → Flt := fun i => v3idx v i.val

/-- The accel pre-gate: skip when the measured specific force is not gravity-sized,
`fabsf(|y_b / accel_scale| - |g_n|) > 1.0f`. -/
def accelGravityGate (s : Iekf) (m : SensorCombined) : Bool :=
  fgt (fabs (fsub (v3norm (v3divS (accelY m) (s.x 10))) (v3norm g_n))) (some 1)

def accelResidual (s : Iekf) (m : SensorCombined) : V3F :=
  v3sub (qConj (quatOfX s.x) (v3divS (accelY m) (s.x 10))) g_n

/-- Accel measurement Jacobian: a `2·[unit(g_n)]×` block under the rotation errors. -/
def accelH : Fin 3 → Fin 15 → Flt := fun i j =>
  if j.val < 3 then fmul (v3hatN (v3unit g_n) i.val j.val) (some 2) else some 0

def accelR (dt : ℚ) : Fin 3 → Fin 3 → Flt := fun i j =>
  if i = j then fdiv (some 1) (some dt) else some 0

def accelKal (s : Iekf) (m : SensorCombined) (dt : ℚ) : KOut 15 :=
  kalman_correct s.P accelH (accelR dt) (v3ToVec (accelResidual s m))

/-- IEKF::correctAccel. -/
def correctAccel (tbl : ℕ → ℚ) (s : Iekf) (m : SensorCombined) : Iekf :=
  if accelTNew m ≠ s.tAccel then
    if wrapDt (accelTNew m) s.tAccel < 0 then s
    else
      let dt := wrapDt (accelTNew m) s.tAccel
      let s1 : Iekf := { s with tAccel := accelTNew m }
      if accelGravityGate s1 m then s1
      else
        let k := accelKal s1 m dt
        let warns1 := if fgt k.beta (some (tbl 3)) then s1.warns ++ ["accel fault"] else s1.warns
        let dxe : Vec15 := fun j => if j.val = 2 then some 0 else k.dxe j
        let s2 := applyErrorCorrection { s1 with warns := warns1 } dxe
        { s2 with P := setP (matAdd s2.P k.dP) }
  else s

def magY (m : SensorCombined) : V3F :=
  ⟨m.magnetometer_ga 0, m.magnetometer_ga 1, m.magnetometer_ga 2⟩

def magResidual (s : Iekf) (m : SensorCombined) : V3F :=
  v3sub (qConj (quatOfX s.x) (v3unit (magY m))) (v3unit B_nVec)

/-- Mag measurement Jacobian: a `2·[unit(B_n)]×` block under the rotation errors. -/
def magH : Fin 3 → Fin 15 → Flt := fun i j =>
  if j.val < 3 then fmul (v3hatN (v3unit B_nVec) i.val j.val) (some 2) else some 0

/-- Mag measurement noise `diag(1/dt, 1/dt, 100/dt)`. -/
def magR (dt : ℚ) : Fin 3 → Fin 3 → Flt := fun i j =>
  if i = j then (if i.val = 2 then fdiv (some 100) (some dt) else fdiv (some 1) (some dt))
  else some 0

def magKal (s : Iekf) (m : SensorCombined) (dt : ℚ) : KOut 15 :=
  kalman_correct s.P magH (magR dt) (v3ToVec (magResidual s m))

/-- IEKF::correctMag. -/
def correctMag (tbl : ℕ → ℚ) (s : Iekf) (m : SensorCombined) : Iekf :=
  if magTNew m ≠ s.tMag then
    if wrapDt (magTNew m) s.tMag < 0 then s
    else
      let dt := wrapDt (magTNew m) s.tMag
      let s1 : Iekf := { s with tMag := magTNew m }
      let k := magKal s1 m dt
      let warns1 := if fgt k.beta (some (tbl 3)) then s1.warns ++ ["mag fault"] else s1.warns
      let dxe : Vec15 := fun j => if j.val < 2 then some 0 else k.dxe j
      let s2 := applyErrorCorrection { s1 with warns := warns1 } dxe
      { s2 with P := setP (matAdd s2.P k.dP) }
  else s

/-- Baro residual: `baro_alt - (-pos_d + baro_bias - origin_alt)`. -/
def baroResidual (s : Iekf) (m : SensorCombined) : Flt :=
  fsub m.baro_alt_meter (fsub (fadd (fneg (s.x 13)) (s.x 15)) (some s.origin.alt))

/-- Baro measurement Jacobian: `H[asl, pos_d] = -1`, `H[asl, baro_bias] = 1`. -/
def baroH : Fin 1 → Fin 15 → Flt := fun _ j =>
  if j.val = 12 then some (-1) else if j.val = 14 then some 1 else some 0

def baroR (dt : ℚ) : Fin 1 → Fin 1 → Flt := fun _ _ => fdiv (some 10) (some dt)

def baroKal (s : Iekf) (m : SensorCombined) (dt : ℚ) : KOut 15 :=
  kalman_correct s.P baroH (baroR dt) (fun _ => baroResidual s m)

/-- IEKF::correctBaro. -/
def correctBaro (tbl : ℕ → ℚ) (s : Iekf) (m : SensorCombined) : Iekf :=
  if baroTNew m ≠ s.tBaro then
    if wrapDt (baroTNew m) s.tBaro < 0 then s
    else
      let dt := wrapDt (baroTNew m) s.tBaro
      let s1 : Iekf := { s with tBaro := baroTNew m }
      let k := baroKal s1 m dt
      let warns1 := if fgt k.beta (some (tbl 1)) then s1.warns ++ ["baro fault"] else s1.warns
      let s2 := applyErrorCorrection { s1 with warns := warns1 } k.dxe
      { s2 with P := setP (matAdd s2.P k.dP) }
  else s

/-- GPS measurement Jacobian: identity blocks from position and velocity error states. -/
def gpsH : Fin 6 → Fin 15 → Flt := fun i j =>
  if i.val < 3 ∧ j.val = i.val + 10 then some 1
  else if 3 ≤ i.val ∧ j.val = i.val then some 1
  else some 0

def gpsR : Fin 6 → Fin 6 → Flt := fun i j => if i = j then some 1 else some 0

/-- IEKF::correctGps, parameterized by the external geodesy helper `g2l`. -/
def correctGps (g2l : GlobalToLocal) (tbl : ℕ → ℚ) (s : Iekf) (m : GpsPosition) : Iekf :=
  if m.satellites_used < 6 ∨ m.fix_type < 3 then s
  else
    let lat_deg : ℚ := (m.lat : ℚ) * (1/10^7)
    let lon_deg : ℚ := (m.lon : ℚ) * (1/10^7)
    let alt_m : ℚ := (m.alt : ℚ) * (1/10^3)
    let o1 := if !s.origin.xyLatched then latchXY s.origin lat_deg lon_deg m.timestamp else s.origin
    let o2 := if !o1.altLatched then latchAlt o1 alt_m m.timestamp else o1
    let s1 : Iekf := { s with tGps := m.timestamp, origin := o2 }
    let gpsLocal := g2l o2 lat_deg lon_deg alt_m
    let y : Fin 6 → Flt := fun i =>
      if i.val = 0 then gpsLocal.vx
      else if i.val = 1 then gpsLocal.vy
      else if i.val = 2 then gpsLocal.vz
      else if i.val = 3 then m.vel_n_m_s
      else if i.val = 4 then m.vel_e_m_s
      else m.vel_d_m_s
    let yh : Fin 6 → Flt := fun i =>
      if i.val = 0 then s1.x 11
      else if i.val = 1 then s1.x 12
      else if i.val = 2 then s1.x 13
      else if i.val = 3 then s1.x 4
      else if i.val = 4 then s1.x 5
      else s1.x 6
    let r : Fin 6 → Flt := fun i => fsub (y i) (yh i)
    let k := kalman_correct s1.P gpsH gpsR r
    let warns1 := if fgt k.beta (some (tbl 6)) then s1.warns ++ ["gps fault"] else s1.warns
    let dxe : Vec15 := fun j => if j.val < 3 then some 0 else k.dxe j
    let s2 := applyErrorCorrection { s1 with warns := warns1 } dxe
    { s2 with P := setP (matAdd s2.P k.dP) }

/-! ## Concrete fixtures used by the theorems -/

/-- Input for the C6 counterexample: upper entry `P(0,1) = 5`, lower entry `P(1,0) = 7`,
both finite and in range, everything else 0. -/
def P5mat : Mat15 := fun i j =>
  if i.val = 0 ∧ j.val = 1 then some 5
  else if i.val = 1 ∧ j.val = 0 then some 7
  else some 0

/-- An error correction with only the accel_scale component set. -/
def dxeScaleOnly (d : ℚ) : Vec15 := fun j => if j = 9 then some d else some 0

/-- Spec formulas for the state derivative (§4.2), with the measured rates and specific
force read from the cached input `um` and the gyro bias and accel scale from the cached
state `xm` — which is what the code does (the amended C4).  Only the argument
quaternion and velocity (`xa`) enter; the argument `u` does not appear at all. -/
def dynamicsSpec (xa xm : Fin 16 → ℚ) (um : Fin 6 → ℚ) (i : Fin 16) : ℚ :=
  let q0 := xa 0
  let q1 := xa 1
  let q2 := xa 2
  let q3 := xa 3
  let w1 := um 0 - xm 7
  let w2 := um 1 - xm 8
  let w3 := um 2 - xm 9
  let v1 := um 3 / xm 10
  let v2 := um 4 / xm 10
  let v3 := um 5 / xm 10
  let dotqv := q1*v1 + q2*v2 + q3*v3
  let kq := q0^2 - q1^2 - q2^2 - q3^2
  if i.val = 0 then (-(q1*w1) - q2*w2 - q3*w3)/2
  else if i.val = 1 then (q0*w1 + q2*w3 - q3*w2)/2
  else if i.val = 2 then (q0*w2 - q1*w3 + q3*w1)/2
  else if i.val = 3 then (q0*w3 + q1*w2 - q2*w1)/2
  else if i.val = 4 then kq*v1 + 2*dotqv*q1 + 2*q0*(q2*v3 - q3*v2)
  else if i.val = 5 then kq*v2 + 2*dotqv*q2 + 2*q0*(q3*v1 - q1*v3)
  else if i.val = 6 then kq*v3 + 2*dotqv*q3 + 2*q0*(q1*v2 - q2*v1) + 49/5
  else if i.val = 11 then xa 4
  else if i.val = 12 then xa 5
  else if i.val = 13 then xa 6
  else 0

/-- Arguments for the C4 counterexample: identity quaternion, unit accel scale. -/
def xc4 : Fin 16 → ℚ := fun i => if i.val = 0 then 1 else if i.val = 10 then 1 else 0

def uc4 : Fin 6 → ℚ := fun _ => 0

def umc4a : Fin 6 → ℚ := fun i => if i.val = 5 then 1 else 0

def umc4b : Fin 6 → ℚ := fun i => if i.val = 5 then 2 else 0

/-- A trivial geodesy helper used for concrete witnesses. -/
def g2lZero : GlobalToLocal := fun _ _ _ _ => ⟨some 0, some 0, some 0⟩

/-- A zero gate table used for concrete witnesses (its value never affects x or P). -/
def tblZero : ℕ → ℚ := fun _ => 0

/-- A GPS sample rejected by the quality gate (4 satellites). -/
def gpsBadMsg : GpsPosition :=
  { timestamp := 1000, lat := 473970000, lon := 85450000, alt := 488000,
    vel_n_m_s := some 0, vel_e_m_s := some 0, vel_d_m_s := some 0,
    satellites_used := 4, fix_type := 3 }

/-- A GPS sample accepted by the quality gate (8 satellites, 3D fix). -/
def gpsGoodMsg : GpsPosition :=
  { timestamp := 5000, lat := 473970000, lon := 85450000, alt := 488000,
    vel_n_m_s := some 0, vel_e_m_s := some 0, vel_d_m_s := some 0,
    satellites_used := 8, fix_type := 3 }

/-- The origin after a correctGps call. -/
def gpsOrigin (g2l : GlobalToLocal) (tbl : ℕ → ℚ) (s : Iekf) (m : GpsPosition) : Origin :=
  (correctGps g2l tbl s m).origin

/-- A filter state whose accel cache stands at 2.0 s. -/
def sOoo : Iekf := { iekfInit with tAccel := 2000000 }

/-- An accel sample timestamped 1.0 s — earlier than the 2.0 s cache. -/
def mOoo : SensorCombined :=
  { timestamp := 1000000, accelerometer_timestamp_relative := 0,
    magnetometer_timestamp_relative := 0, baro_timestamp_relative := 0,
    gyro_rad := fun _ => some 0, accelerometer_m_s2 := fun _ => some 0,
    magnetometer_ga := fun _ => some 0, baro_alt_meter := some 0,
    gyro_integral_dt := 0 }

/-- The gravity-consistent cached input: zero gyro, accelerometer (0, 0, -9.8). -/
def uStar : Vec6 := fun i => if i = 5 then some (-(49/5)) else some 0

/-- The freshly constructed filter with the gravity-consistent input cached. -/
def sStar : Iekf := { iekfInit with u := uStar }

/-- An accel sample at 4 ms whose measurement equals the cached accelerometer input. -/
def mStar : SensorCombined :=
  { timestamp := 4000, accelerometer_timestamp_relative := 0,
    magnetometer_timestamp_relative := 0, baro_timestamp_relative := 0,
    gyro_rad := fun _ => some 0,
    accelerometer_m_s2 := fun i => if i = 2 then some (-(49/5)) else some 0,
    magnetometer_ga := fun _ => some 0, baro_alt_meter := some 0,
    gyro_integral_dt := 1/250 }

/-! ## C1 / C6: covariance conditioning -/

theorem fadd_some (a b : ℚ) : fadd (some a) (some b) = some (a + b) := rfl

theorem fsub_some (a b : ℚ) : fsub (some a) (some b) = some (a - b) := rfl

theorem fmul_some (a b : ℚ) : fmul (some a) (some b) = some (a * b) := rfl

theorem fneg_some (a : ℚ) : fneg (some a) = some (-a) := rfl

theorem fdiv_some (a b : ℚ) (h : b ≠ 0) : fdiv (some a) (some b) = some (a / b) := by
  simp [fdiv, h]

theorem condEntry_le_cap (d : Bool) (v : Flt) : condEntry d v ≤ 10^9 := by
  unfold condEntry
  cases v <;> dsimp <;> split_ifs <;> norm_num at * <;> linarith

theorem condEntry_diag_floor (v : Flt) : 1/10^6 ≤ condEntry true v := by
  unfold condEntry
  cases v <;> dsimp <;> split_ifs <;> norm_num at * <;> linarith

theorem condEntry_inrange_id (a : ℚ) (h : a ≤ 10^9) : condEntry false (some a) = a := by
  unfold condEntry
  dsimp only
  rw [if_neg (not_lt.2 h)]
  simp

/-- C1: for every input matrix P (non-finite, oversized or asymmetric entries included),
the covariance stored by setP is exactly symmetric, every entry is finite, every entry
is at most 1e9, and every diagonal entry is at least 1e-6. -/
theorem setP_invariants (P : Mat15) :
    (∀ i j, setP P i j = setP P j i) ∧
    (∀ i j, ∃ a : ℚ, setP P i j = some a ∧ a ≤ 10^9) ∧
    (∀ i, ∃ a : ℚ, setP P i i = some a ∧ 1/10^6 ≤ a) := by
  refine ⟨?_, ?_, ?_⟩
  · intro i j
    unfold setP
    rcases Nat.lt_trichotomy i.val j.val with h | h | h
    · have hne : decide (j = i) = false :=
        decide_eq_false fun e => absurd (congrArg Fin.val e) (by omega)
      rw [if_neg (by omega), if_pos (by omega), hne]
    · have : i = j := Fin.ext h
      subst this; rfl
    · have hne : decide (i = j) = false :=
        decide_eq_false fun e => absurd (congrArg Fin.val e) (by omega)
      rw [if_pos (by omega), if_neg (by omega), hne]
  · intro i j
    unfold setP
    split_ifs <;> exact ⟨_, rfl, condEntry_le_cap _ _⟩
  · intro i
    unfold setP
    rw [if_pos (le_refl _), decide_eq_true rfl]
    exact ⟨_, rfl, condEntry_diag_floor _⟩

/-- C6 counterexample: the claim says both stored entries at an asymmetric pair equal
the conditioned value of the input's upper-triangle entry `P(i,j)`; at `P5mat` the
conditioned upper entry is 5, yet setP stores 7 (the conditioned lower entry) in both
places — the code mirrors the lower triangle into the upper, not the reverse. -/
theorem setP_mirror_cex :
    P5mat 0 1 = some 5 ∧ condEntry false (P5mat 0 1) = 5 ∧
    setP P5mat 0 1 ≠ some (condEntry false (P5mat 0 1)) ∧
    setP P5mat 0 1 = some 7 ∧ setP P5mat 1 0 = some 7 := by
  refine ⟨rfl, by decide, ?_, by decide, by decide⟩
  decide

/-- C6 (amended): setP conditions the LOWER triangle and mirrors it into the upper:
for every index pair i < j whose finite, in-range lower entry P(j,i) is `a`, both
stored entries equal `a` (the conditioned value of the lower-triangle input entry). -/
theorem setP_mirrors_lower (P : Mat15) (i j : Fin 15) (h : i.val < j.val) (a : ℚ)
    (hval : P j i = some a) (hle : a ≤ 10^9) :
    setP P i j = some a ∧ setP P j i = some a := by
  have hne : decide (j = i) = false :=
    decide_eq_false fun e => absurd (congrArg Fin.val e) (by omega)
  constructor
  · show (if j.val ≤ i.val then some (condEntry (decide (i = j)) (P i j))
      else some (condEntry false (P j i))) = some a
    rw [if_neg (by omega), hval, condEntry_inrange_id a hle]
  · show (if i.val ≤ j.val then some (condEntry (decide (j = i)) (P j i))
      else some (condEntry false (P i j))) = some a
    rw [if_pos (by omega), hne, hval, condEntry_inrange_id a hle]

theorem setP_mirrors_lower_witness :
    setP P5mat 0 1 = some 7 ∧ setP P5mat 1 0 = some 7 :=
  setP_mirrors_lower P5mat 0 1 (by decide) 7 (by decide) (by norm_num)

/-! ## C3: the nominal state bounder -/

theorem lb_le_ub (i : Fin 16) : lowerBound i ≤ upperBound i := by
  unfold lowerBound upperBound
  split_ifs <;> norm_num

theorem clampB_mem (i : Fin 16) (a : ℚ) :
    lowerBound i ≤ clampB i a ∧ clampB i a ≤ upperBound i := by
  unfold clampB
  split_ifs with h1 h2
  · exact ⟨le_refl _, lb_le_ub i⟩
  · exact ⟨lb_le_ub i, le_refl _⟩
  · exact ⟨not_lt.1 h1, not_lt.1 h2⟩

theorem boundX_core (x : Vec16) (i : Fin 16) :
    ∃ a : ℚ, boundX x i = some a ∧ lowerBound i ≤ a ∧ a ≤ upperBound i :=
  ⟨_, rfl, clampB_mem i _⟩

/-- C3: after boundX every element of the nominal state is finite and inside its
declared bound (quaternion [-2,2], velocity [-100,100], gyro bias exactly 0 since its
lower and upper bounds are both 0, accel_scale [0.8,1.5], position [-1e9,1e9],
terrain_alt and baro_bias [-1e6,1e6]); a non-finite element is replaced by 0 and then
saturated; and the two mutators of x — applyErrorCorrection and predict, which both
end with boundX — leave every element inside its bound. -/
theorem boundX_bounds :
    (∀ (x : Vec16) (i : Fin 16),
      (∃ a : ℚ, boundX x i = some a ∧ lowerBound i ≤ a ∧ a ≤ upperBound i) ∧
      (x i = none → boundX x i = some (clampB i 0))) ∧
    (∀ (s : Iekf) (d : Vec15) (i : Fin 16),
      ∃ a : ℚ, (applyErrorCorrection s d).x i = some a ∧
        lowerBound i ≤ a ∧ a ≤ upperBound i) ∧
    (∀ (s : Iekf) (dt : ℚ) (i : Fin 16),
      ∃ a : ℚ, (predict s dt).x i = some a ∧ lowerBound i ≤ a ∧ a ≤ upperBound i) := by
  refine ⟨fun x i => ⟨boundX_core x i, fun hnone => ?_⟩,
    fun s d i => boundX_core _ i, fun s dt i => boundX_core _ i⟩
  unfold boundX
  rw [hnone]

theorem boundX_bounds_witness :
    boundX (fun _ => none) 10 = some (clampB 10 0) ∧ clampB 10 0 = 4/5 :=
  ⟨(boundX_bounds.1 (fun _ => none) 10).2 rfl, by decide⟩

/-! ## C10: multiplicative accel scale injection -/

theorem boundX_inband (y : Vec16) (c : ℚ) (hy : y 10 = some c)
    (h1 : 4/5 ≤ c) (h2 : c ≤ 3/2) : boundX y 10 = some c := by
  unfold boundX
  rw [hy]
  have hl : lowerBound 10 = 4/5 := by decide
  have hu : upperBound 10 = 3/2 := by decide
  unfold clampB
  rw [hl, hu, if_neg (not_lt.2 h1), if_neg (not_lt.2 h2)]

theorem applyEC_scale_step (t : Iekf) (c d : ℚ) (hx : t.x 10 = some c)
    (h1 : 4/5 ≤ c * (1 + d)) (h2 : c * (1 + d) ≤ 3/2) :
    (applyErrorCorrection t (dxeScaleOnly d)).x 10 = some (c * (1 + d)) := by
  have hy : vecAdd t.x (fun i =>
        if i.val = 0 then (qMul ⟨some 0, dxeScaleOnly d 0, dxeScaleOnly d 1, dxeScaleOnly d 2⟩
            (quatOfX t.x)).q0
        else if i.val = 1 then (qMul ⟨some 0, dxeScaleOnly d 0, dxeScaleOnly d 1,
            dxeScaleOnly d 2⟩ (quatOfX t.x)).q1
        else if i.val = 2 then (qMul ⟨some 0, dxeScaleOnly d 0, dxeScaleOnly d 1,
            dxeScaleOnly d 2⟩ (quatOfX t.x)).q2
        else if i.val = 3 then (qMul ⟨some 0, dxeScaleOnly d 0, dxeScaleOnly d 1,
            dxeScaleOnly d 2⟩ (quatOfX t.x)).q3
        else if i.val = 4 then dxeScaleOnly d 3
        else if i.val = 5 then dxeScaleOnly d 4
        else if i.val = 6 then dxeScaleOnly d 5
        else if i.val = 7 then (qConjInv (quatOfX t.x)
            ⟨dxeScaleOnly d 6, dxeScaleOnly d 7, dxeScaleOnly d 8⟩).vx
        else if i.val = 8 then (qConjInv (quatOfX t.x)
            ⟨dxeScaleOnly d 6, dxeScaleOnly d 7, dxeScaleOnly d 8⟩).vy
        else if i.val = 9 then (qConjInv (quatOfX t.x)
            ⟨dxeScaleOnly d 6, dxeScaleOnly d 7, dxeScaleOnly d 8⟩).vz
        else if i.val = 10 then fmul (t.x 10) (dxeScaleOnly d 9)
        else if i.val = 11 then dxeScaleOnly d 10
        else if i.val = 12 then dxeScaleOnly d 11
        else if i.val = 13 then dxeScaleOnly d 12
        else if i.val = 14 then dxeScaleOnly d 13
        else dxeScaleOnly d 14) 10 = some (c * (1 + d)) := by
    show fadd (t.x 10) (fmul (t.x 10) (some d)) = some (c * (1 + d))
    rw [hx]
    show some (c + c * d) = some (c * (1 + d))
    exact congrArg some (by ring)
  exact boundX_inband _ _ hy h1 h2

/-- C10: injecting only an accel_scale error Δ through applyErrorCorrection multiplies
accel_scale by (1 + Δ), and doing it twice yields accel_scale·(1+Δ)², provided the
intermediate and final values stay inside the saturation band [0.8, 1.5]. -/
theorem applyEC_scale_multiplicative (s : Iekf) (a d : ℚ) (hx : s.x 10 = some a)
    (h1 : 4/5 ≤ a * (1 + d)) (h2 : a * (1 + d) ≤ 3/2)
    (h3 : 4/5 ≤ a * (1 + d)^2) (h4 : a * (1 + d)^2 ≤ 3/2) :
    (applyErrorCorrection s (dxeScaleOnly d)).x 10 = some (a * (1 + d)) ∧
    (applyErrorCorrection (applyErrorCorrection s (dxeScaleOnly d)) (dxeScaleOnly d)).x 10
      = some (a * (1 + d)^2) := by
  have e1 := applyEC_scale_step s a d hx h1 h2
  have hsq : a * (1 + d) * (1 + d) = a * (1 + d)^2 := by ring
  have e2 := applyEC_scale_step _ (a * (1 + d)) d e1 (by rw [hsq]; exact h3)
    (by rw [hsq]; exact h4)
  rw [hsq] at e2
  exact ⟨e1, e2⟩

theorem applyEC_scale_multiplicative_witness :
    (applyErrorCorrection iekfInit (dxeScaleOnly (1/10))).x 10 = some (1 * (1 + 1/10)) ∧
    (applyErrorCorrection (applyErrorCorrection iekfInit (dxeScaleOnly (1/10)))
      (dxeScaleOnly (1/10))).x 10 = some (1 * (1 + 1/10)^2) :=
  applyEC_scale_multiplicative iekfInit 1 (1/10) rfl (by norm_num) (by norm_num)
    (by norm_num) (by norm_num)

/-! ## C4: the dynamics reads the member fields, not its arguments -/

/-- C4 counterexample: two calls of dynamics with identical arguments x and u but
different cached member inputs `_u` return different derivatives (vel_d component),
so the result is not a function of the arguments x and u alone. -/
theorem dynamics_not_arg_function :
    dynamics (toF xc4) (toF uc4) (toF xc4) (toF umc4a) 6 ≠
    dynamics (toF xc4) (toF uc4) (toF xc4) (toF umc4b) 6 := by decide

set_option maxHeartbeats 4000000 in
/-- C4 (amended): dynamics returns the length-16 derivative given by the claimed
formulas, except that the body rates and accelerometer sample come from the cached
input `_u` (here `um`) and the gyro bias and accel scale from the cached state `_x`
(here `xm`), not from the arguments; the argument u is never read, and only the
quaternion and velocity components of the argument x are. -/
theorem dynamics_member_formulas (xa xm : Fin 16 → ℚ) (ua um : Fin 6 → ℚ)
    (hs : xm 10 ≠ 0) (i : Fin 16) :
    dynamics (toF xa) (toF ua) (toF xm) (toF um) i = some (dynamicsSpec xa xm um i) := by
  have hd : ∀ a : ℚ, fdiv (some a) (some (xm 10)) = some (a / xm 10) :=
    fun a => fdiv_some a _ hs
  fin_cases i <;>
    (simp +decide [dynamics, dynamicsSpec, toF, quatOfX, qMul, qConj, qConjugate, qOfV,
      qScale, v3sub, v3divS, v3add, fadd, fsub, fmul, fneg, g_n, hd]; try ring)

theorem dynamics_member_formulas_witness :
    (xc4 10 ≠ 0) ∧ dynamics (toF xc4) (toF uc4) (toF xc4) (toF umc4a) 6
      = some (dynamicsSpec xc4 xc4 umc4a 6) :=
  ⟨by decide, dynamics_member_formulas xc4 xc4 uc4 umc4a (by decide) 6⟩

/-! ## C9: the chi-squared gate is advisory -/

set_option maxHeartbeats 4000000 in
/-- C9: in every corrector the chi-squared gate only logs; the nominal state and the
covariance produced by the call do not depend on the BETA_TABLE thresholds at all, so
a measurement whose beta exceeds the gate yields exactly the x and P that the same
measurement would yield under a gate it does not exceed. -/
theorem gate_advisory (tbl tbl2 : ℕ → ℚ) (g2l : GlobalToLocal) (s : Iekf)
    (m : SensorCombined) (mg : GpsPosition) :
    ((correctAccel tbl s m).x = (correctAccel tbl2 s m).x ∧
      (correctAccel tbl s m).P = (correctAccel tbl2 s m).P) ∧
    ((correctMag tbl s m).x = (correctMag tbl2 s m).x ∧
      (correctMag tbl s m).P = (correctMag tbl2 s m).P) ∧
    ((correctBaro tbl s m).x = (correctBaro tbl2 s m).x ∧
      (correctBaro tbl s m).P = (correctBaro tbl2 s m).P) ∧
    ((correctGps g2l tbl s mg).x = (correctGps g2l tbl2 s mg).x ∧
      (correctGps g2l tbl s mg).P = (correctGps g2l tbl2 s mg).P) := by
  refine ⟨⟨?_, ?_⟩, ⟨?_, ?_⟩, ⟨?_, ?_⟩, ⟨?_, ?_⟩⟩ <;>
    (simp only [correctAccel, correctMag, correctBaro, correctGps]; split_ifs <;> rfl)

/-! ## C7 / C8: the GPS quality gate and origin latching -/

/-- C8: a GPS sample with `satellites_used < 6` or `fix_type < 3` is rejected before
anything is touched: x, P, the origin and the cached GPS timestamp — the whole filter
state — are returned unchanged. -/
theorem gps_reject_no_change (g2l : GlobalToLocal) (tbl : ℕ → ℚ) (s : Iekf)
    (m : GpsPosition) (h : m.satellites_used < 6 ∨ m.fix_type < 3) :
    correctGps g2l tbl s m = s := by
  unfold correctGps
  rw [if_pos h]

theorem gps_reject_no_change_witness :
    correctGps g2lZero tblZero iekfInit gpsBadMsg = iekfInit :=
  gps_reject_no_change g2lZero tblZero iekfInit gpsBadMsg (Or.inl (by decide))

theorem correctGps_origin_eq (g2l : GlobalToLocal) (tbl : ℕ → ℚ) (s : Iekf)
    (m : GpsPosition) (h : ¬(m.satellites_used < 6 ∨ m.fix_type < 3)) :
    gpsOrigin g2l tbl s m =
      (if !(if !s.origin.xyLatched then
              latchXY s.origin ((m.lat : ℚ) * (1/10^7)) ((m.lon : ℚ) * (1/10^7)) m.timestamp
            else s.origin).altLatched then
        latchAlt (if !s.origin.xyLatched then
              latchXY s.origin ((m.lat : ℚ) * (1/10^7)) ((m.lon : ℚ) * (1/10^7)) m.timestamp
            else s.origin) ((m.alt : ℚ) * (1/10^3)) m.timestamp
      else (if !s.origin.xyLatched then
              latchXY s.origin ((m.lat : ℚ) * (1/10^7)) ((m.lon : ℚ) * (1/10^7)) m.timestamp
            else s.origin)) := by
  unfold gpsOrigin correctGps
  rw [if_neg h]
  rfl

/-- C7: an accepted GPS sample leaves both origin latches set; the first accepted
sample latches the horizontal and the vertical origin from the sample exactly once,
and on any later accepted sample (latches already set) neither latch function runs
again — the latched values and latch timestamps are unchanged. -/
theorem gps_origin_latch_once (g2l : GlobalToLocal) (tbl : ℕ → ℚ) (s : Iekf)
    (m : GpsPosition) (h : ¬(m.satellites_used < 6 ∨ m.fix_type < 3)) :
    ((gpsOrigin g2l tbl s m).xyLatched = true ∧
      (gpsOrigin g2l tbl s m).altLatched = true) ∧
    (s.origin.xyLatched = false →
      (gpsOrigin g2l tbl s m).latDeg = (m.lat : ℚ) * (1/10^7) ∧
      (gpsOrigin g2l tbl s m).lonDeg = (m.lon : ℚ) * (1/10^7) ∧
      (gpsOrigin g2l tbl s m).xyTimestamp = m.timestamp) ∧
    (s.origin.altLatched = false →
      (gpsOrigin g2l tbl s m).alt = (m.alt : ℚ) * (1/10^3) ∧
      (gpsOrigin g2l tbl s m).altTimestamp = m.timestamp) ∧
    (s.origin.xyLatched = true →
      (gpsOrigin g2l tbl s m).latDeg = s.origin.latDeg ∧
      (gpsOrigin g2l tbl s m).lonDeg = s.origin.lonDeg ∧
      (gpsOrigin g2l tbl s m).xyTimestamp = s.origin.xyTimestamp) ∧
    (s.origin.altLatched = true →
      (gpsOrigin g2l tbl s m).alt = s.origin.alt ∧
      (gpsOrigin g2l tbl s m).altTimestamp = s.origin.altTimestamp) := by
  rw [correctGps_origin_eq g2l tbl s m h]
  cases hxy : s.origin.xyLatched <;> cases halt : s.origin.altLatched <;>
    simp [latchXY, latchAlt, hxy, halt]

theorem gps_origin_latch_once_witness :
    (gpsOrigin g2lZero tblZero iekfInit gpsGoodMsg).xyLatched = true ∧
    (gpsOrigin g2lZero tblZero iekfInit gpsGoodMsg).altLatched = true :=
  (gps_origin_latch_once g2lZero tblZero iekfInit gpsGoodMsg (by decide)).1

/-! ## C2: the out-of-order timestamp guard is dead code -/

/-- C2 (code bug): an out-of-order accel sample (1.0 s against a cached 2.0 s) is NOT
skipped.  The subtraction `timestampAccelNew - _timestampAccel` is uint64 arithmetic,
so it wraps to 2^64 - 10^6 and the resulting dt is a huge positive number, never a
negative one: the `dt < 0` guard is dead code, the update proceeds and the cached
timestamp moves backwards — the spec's described skip is clearly what the guard was
written for. -/
theorem accel_out_of_order_not_skipped :
    sOoo.tAccel = 2000000 ∧
    accelTNew mOoo = 1000000 ∧
    (0 : ℚ) < wrapDt (accelTNew mOoo) sOoo.tAccel ∧
    (correctAccel tblZero sOoo mOoo).tAccel = 1000000 := by
  refine ⟨rfl, by decide, by decide, by decide⟩

/-! ## C5: quiescent predict/correct cycles -/

/-- C5 counterexample: with genuinely zero IMU input the specific-force term does not
cancel gravity, so one predict step from the freshly constructed filter already
changes x — vel_d moves from 0 to 9.8·dt — and a diagonal entry of P that stands at
the 1e9 cap does not grow by Q(i,i)·dt (it stays exactly 1e9 although Q(i,i)·dt ≠ 0). -/
theorem predict_zero_input_cex :
    (∀ i, iekfInit.u i = some 0) ∧
    iekfInit.x 6 = some 0 ∧
    (predict iekfInit (1/250)).x 6 = some (49/1250) ∧
    initP 3 3 = some (10^9) ∧
    (predict iekfInit (1/250)).P 3 3 = some (10^9) ∧
    Qdiag 3 * (1/250) ≠ 0 := by decide

/-- C5 (amended): a quiescent cycle needs the gravity-consistent input, not the zero
input: from the freshly constructed filter with cached input (0,0,0, 0,0,-9.8), one
predict step (dt = 4 ms) leaves every element of x unchanged, and maps every diagonal
entry of P to min(P(i,i) + Q(i,i)·dt, 1e9) — the Q(i,i)·dt growth holds exactly below
the 1e9 cap and entries at the cap stay put; a subsequent accel correction whose
measurement equals the cached input (zero residual) again leaves x unchanged. -/
theorem predict_equilibrium_step :
    (∀ i, (predict sStar (1/250)).x i = sStar.x i) ∧
    (∀ i, (predict sStar (1/250)).P i i
        = some (min (initPdiag i + Qdiag i * (1/250)) (10^9))) ∧
    (∀ i, (correctAccel tblZero (predict sStar (1/250)) mStar).x i = sStar.x i) := by
  refine ⟨by decide, by decide, by decide⟩
